import Mathlib

/-!
Shallow embedding of the tripero-node client SDK
(GPE-Sistemas/tripero-node) in Lean 4, together with theorems settling
the specification claims about it.

Embedding conventions:
* JavaScript strings are embedded as lists of characters (`JsString`).
* JavaScript numbers appearing in event payloads are embedded as `Int`;
  the SDK performs no arithmetic on them, it only moves them around.
* Thrown JavaScript errors are embedded as their message string, and a
  fallible computation returns `Except JsString α`.
* The leveled logger is embedded by returning the list of log entries an
  operation emits instead of performing console output.
* Transport interactions (ioredis, fetch) are embedded as an effect
  trace plus, where the code branches on an I/O result, an explicit
  outcome argument describing that result.
-/

set_option autoImplicit false

namespace Tripero

/-- A JavaScript string, embedded as its list of characters. -/
abbrev JsString := List Char

/-- Embeds a Lean string literal as a `JsString`. -/
def js (s : String) : JsString := s.toList

/-- Log levels of the SDK logger (src/src/interfaces/config.interface.ts). -/
inductive LogLevel
  | debug
  | info
  | warn
  | error
  | silent
deriving DecidableEq

/-- One emitted log entry: a level and the message text (extra logger
arguments are elided from the embedding). -/
structure LogEntry where
  level : LogLevel
  msg : JsString
deriving DecidableEq

/-- A parsed JSON value, the result type of a successful JSON.parse. -/
inductive Json
  | null
  | bool (b : Bool)
  | num (n : Int)
  | str (s : JsString)
  | arr (elems : List Json)
  | obj (fields : List (JsString × Json))

/-- HTTP configuration (interface TriperoHttpOptions,
src/src/interfaces/events.interface.ts lines 313-330). -/
structure TriperoHttpOptions where
  baseUrl : JsString
  timeout : Option Nat
  headers : List (JsString × JsString)

/-- Redis configuration (interface TriperoRedisOptions).  The field
`prefixKey` is named keyPrefix in the source. -/
structure TriperoRedisOptions where
  host : Option JsString
  port : Option Nat
  db : Option Nat
  password : Option JsString
  username : Option JsString
  prefixKey : Option JsString

/-- Behaviour options (interface TriperoOptions). -/
structure TriperoOptions where
  enableRetry : Option Bool
  enableOfflineQueue : Option Bool
  throwOnError : Option Bool
  logLevel : Option LogLevel
  maxRetriesPerRequest : Option Nat

/-- Constructor options (interface TriperoClientOptions).  The TS type
declares the http field as required, but a JavaScript caller can still
omit it at runtime, which is why it is embedded as an `Option`; the
redis field's sub-fields are all optional. -/
structure TriperoClientOptions where
  redis : TriperoRedisOptions
  http : Option TriperoHttpOptions
  options : Option TriperoOptions

/-! Defaults from src/src/client/constants.ts.  `DEFAULTS_PREFIX_KEY`
is REDIS_KEY_PREFIX in the source. -/

def DEFAULTS_REDIS_HOST : JsString := js "localhost"

def DEFAULTS_REDIS_PORT : Nat := 6379

def DEFAULTS_REDIS_DB : Nat := 0

def DEFAULTS_PREFIX_KEY : JsString := js "tripero:"

def DEFAULTS_HTTP_TIMEOUT : Nat := 10000

def DEFAULTS_LOG_LEVEL : LogLevel := .info

def DEFAULTS_ENABLE_RETRY : Bool := false

def DEFAULTS_ENABLE_OFFLINE_QUEUE : Bool := false

def DEFAULTS_THROW_ON_ERROR : Bool := false

def DEFAULTS_MAX_RETRIES_PER_REQUEST : Nat := 1

/-- Input channel position:new (src/src/client/constants.ts). -/
def INPUT_CHANNELS_POSITION_NEW : JsString := js "position:new"

/-- Input channel ignition:changed (src/src/client/constants.ts). -/
def INPUT_CHANNELS_IGNITION_CHANGED : JsString := js "ignition:changed"

/-! The REST gateway: class TriperoHttpClient
(src/src/nestjs/tripero.module.ts lines 420-557 of the concatenated
sources, file TriperoHttpClient.ts). -/

/-- Resolved state of a constructed TriperoHttpClient. -/
structure TriperoHttpClient where
  baseUrl : JsString
  timeout : Nat
  headers : List (JsString × JsString)

/-- baseUrl.replace of the regex of one trailing slash with the empty
string: removes a single trailing slash when present. -/
def stripTrailingSlash (s : JsString) : JsString :=
  if s.getLast? = some '/' then s.dropLast else s

/-- The TriperoHttpClient constructor.  Given an absent options object
(a JavaScript undefined), reading options.baseUrl throws a TypeError,
so construction itself fails; otherwise the trailing slash of the base
URL is stripped and the timeout defaults to DEFAULTS_HTTP_TIMEOUT. -/
def TriperoHttpClient.make (options : Option TriperoHttpOptions) :
    Except JsString TriperoHttpClient :=
  match options with
  | none =>
    .error (js "TypeError: Cannot read properties of undefined (reading baseUrl)")
  | some o =>
    .ok { baseUrl := stripTrailingSlash o.baseUrl
          timeout := o.timeout.getD DEFAULTS_HTTP_TIMEOUT
          headers := (js "Content-Type", js "application/json") :: o.headers }

/-- Outcome of the underlying fetch call, supplied to the embedded
request method as an explicit argument: a response (carrying the status
line, the body text and the parsed body), an abort raised by the
timeout controller, or a network-level failure. -/
inductive FetchOutcome (α : Type)
  | response (status : Nat) (statusText : JsString) (bodyText : JsString) (body : α)
  | abortError
  | networkError (msg : JsString)

/-- Response.ok of the fetch API: true exactly for 2xx status codes. -/
def responseOk (status : Nat) : Bool :=
  200 ≤ status && status ≤ 299

/-- TriperoHttpClient.request: logs the request at debug level, then
inspects the fetch outcome.  A non-ok response throws an error built
from the status code, status text and body text (subsequently logged
and rethrown by the catch clause); an abort from the timeout controller
is converted into a timeout error naming the configured duration (not
logged, since the conversion happens before the error log line); a
success returns the parsed body.  Returns the thrown-or-returned value
together with the emitted log entries. -/
def TriperoHttpClient.request {α : Type} (c : TriperoHttpClient)
    (method url : JsString) (outcome : FetchOutcome α) :
    Except JsString α × List LogEntry :=
  let dbg : LogEntry := ⟨.debug, js "HTTP " ++ method ++ js " " ++ url⟩
  match outcome with
  | .response status statusText bodyText body =>
    if responseOk status then
      (.ok body, [dbg])
    else
      (.error (js "HTTP " ++ (toString status).toList ++ js ": " ++
          statusText ++ js " - " ++ bodyText),
       [dbg, ⟨.error, js "HTTP error: " ++ method ++ js " " ++ url⟩])
  | .abortError =>
    (.error (js "Request timeout after " ++ (toString c.timeout).toList ++ js "ms"),
     [dbg])
  | .networkError m =>
    (.error m, [dbg, ⟨.error, js "HTTP error: " ++ method ++ js " " ++ url⟩])

/-- The deviceId field of ReportQueryOptions: a plain string (including
the wildcard all) or an array of device identifiers. -/
inductive DeviceIdFilter
  | str (s : JsString)
  | arr (ids : List JsString)

/-- A value of TypeScript type Date | string.  A Date is embedded by
the ISO-8601 text its toISOString method renders. -/
inductive DateOrString
  | date (isoText : JsString)
  | str (s : JsString)

/-- Report query options (interface ReportQueryOptions).  `fromBound`
and `toBound` are named from and to in the source; the metadata object
is embedded by its JSON.stringify rendering. -/
structure ReportQueryOptions where
  deviceId : DeviceIdFilter
  fromBound : DateOrString
  toBound : DateOrString
  tenantId : Option JsString
  clientId : Option JsString
  fleetId : Option JsString
  metadata : Option JsString

/-- The Date-vs-string normalization applied to the from and to bounds:
a Date is rendered by toISOString, a string is passed through. -/
def toISO : DateOrString → JsString
  | .date isoText => isoText
  | .str s => s

/-- URLSearchParams.set: replaces the value of the first entry with the
given key and removes later duplicates, or appends when absent. -/
def setParam (ps : List (JsString × JsString)) (k v : JsString) :
    List (JsString × JsString) :=
  match ps with
  | [] => [(k, v)]
  | p :: rest =>
    if p.1 = k then (k, v) :: rest.filter (fun q => q.1 ≠ k)
    else p :: setParam rest k v

/-- The guarded set used for the optional filters: a JavaScript
truthiness test, so an absent value and the empty string are both
skipped. -/
def setOpt (ps : List (JsString × JsString)) (k : JsString)
    (v : Option JsString) : List (JsString × JsString) :=
  match v with
  | some s => if s ≠ [] then setParam ps k s else ps
  | none => ps

/-- TriperoHttpClient.buildReportParams: builds the query parameter
list (the content of the URLSearchParams object before URL-encoded
serialization).  An array deviceId is joined with commas; from and to
are normalized by toISO; tenantId, clientId and fleetId are added when
truthy; metadata (already embedded as its JSON rendering) when
present. -/
def TriperoHttpClient.buildReportParams (options : ReportQueryOptions) :
    List (JsString × JsString) :=
  let ps : List (JsString × JsString) := []
  let ps := match options.deviceId with
    | .arr ids => setParam ps (js "deviceId") (List.intercalate (js ",") ids)
    | .str s => setParam ps (js "deviceId") s
  let ps := setParam ps (js "from") (toISO options.fromBound)
  let ps := setParam ps (js "to") (toISO options.toBound)
  let ps := setOpt ps (js "tenantId") options.tenantId
  let ps := setOpt ps (js "clientId") options.clientId
  let ps := setOpt ps (js "fleetId") options.fleetId
  let ps := match options.metadata with
    | some m => setParam ps (js "metadata") m
    | none => ps
  ps

/-- Number of query parameters carrying the given key. -/
def countKey (k : JsString) (ps : List (JsString × JsString)) : Nat :=
  (ps.filter (fun p => p.1 = k)).length

/-- Value of the first query parameter carrying the given key. -/
def getParam (ps : List (JsString × JsString)) (k : JsString) :
    Option JsString :=
  (ps.find? (fun p => p.1 = k)).map Prod.snd

/-! The facade: class TriperoClient (src/src/client/TriperoClient.ts). -/

/-- Outcome of running one registered event handler on a parsed event:
a normal return, a synchronous throw, or a returned promise that later
resolves or rejects. -/
inductive HandlerOutcome
  | ok
  | throws (msg : JsString)
  | promiseResolved
  | promiseRejected (msg : JsString)

/-- A registered event handler.  JavaScript function identity (used by
the Set in the registry for de-duplication) is embedded as a numeric
id; the behaviour on a parsed event is the `run` field. -/
structure Handler where
  id : Nat
  run : Json → HandlerOutcome

/-- The handler registry: a Map from logical channel name to a Set of
handlers, embedded as an insertion-ordered association list with
duplicate-free handler lists. -/
abbrev HandlerRegistry := List (JsString × List Handler)

/-- Map.get on the registry. -/
def lookupChannel : HandlerRegistry → JsString → Option (List Handler)
  | [], _ => none
  | p :: rest, k => if p.1 = k then some p.2 else lookupChannel rest k

/-- Map.set on the registry: overwrites in place when the key exists
(keeping the original insertion position, as a JavaScript Map does) and
appends otherwise. -/
def setChannel : HandlerRegistry → JsString → List Handler → HandlerRegistry
  | [], k, v => [(k, v)]
  | p :: rest, k, v =>
    if p.1 = k then (k, v) :: rest else p :: setChannel rest k v

/-- Fully-resolved internal redis options of the client. -/
structure InternalRedisOptions where
  host : JsString
  port : Nat
  db : Nat
  password : Option JsString
  username : Option JsString
  prefixKey : JsString

/-- Fully-resolved internal behaviour options of the client. -/
structure InternalBehaviorOptions where
  enableRetry : Bool
  enableOfflineQueue : Bool
  throwOnError : Bool
  logLevel : LogLevel
  maxRetriesPerRequest : Nat

/-- The InternalOptions record built by the constructor merge. -/
structure InternalOptions where
  redis : InternalRedisOptions
  http : Option TriperoHttpOptions
  options : InternalBehaviorOptions

/-- State of a TriperoClient instance.  `publisherConn` and
`subscriberConn` embed whether the corresponding ioredis object field
is non-null; `messageListeners` counts the message listeners installed
on the current subscriber connection. -/
structure ClientState where
  options : InternalOptions
  prefixKey : JsString
  httpClient : Option TriperoHttpClient
  publisherConn : Bool
  subscriberConn : Bool
  isConnected : Bool
  isSubscribed : Bool
  handlers : HandlerRegistry
  messageListeners : Nat

/-- Result of one (possibly effectful) client operation: the successor
state, the transport effects performed, the log entries emitted, and
the returned-or-thrown value. -/
inductive Effect
  | openConn
  | quitConn
  | publishCmd (channel : JsString)
  | pipelinePublish (channel : JsString) (count : Nat)
  | subscribeCmd (channels : List JsString)
  | unsubscribeCmd
  | addMessageListener
deriving DecidableEq

structure Step (α : Type) where
  state : ClientState
  effects : List Effect
  logs : List LogEntry
  ret : Except JsString α

/-- The TriperoClient constructor: merges the caller options with the
defaults, resolves the key prefix and unconditionally constructs the
HTTP client from this.options.http — so a TypeError thrown by the
TriperoHttpClient constructor (absent http configuration) propagates
out of construction. -/
def TriperoClient.make (o : TriperoClientOptions) :
    Except JsString ClientState :=
  let internal : InternalOptions :=
    { redis :=
        { host := o.redis.host.getD DEFAULTS_REDIS_HOST
          port := o.redis.port.getD DEFAULTS_REDIS_PORT
          db := o.redis.db.getD DEFAULTS_REDIS_DB
          password := o.redis.password
          username := o.redis.username
          prefixKey := o.redis.prefixKey.getD DEFAULTS_PREFIX_KEY }
      http := o.http
      options :=
        { enableRetry :=
            (o.options.bind TriperoOptions.enableRetry).getD DEFAULTS_ENABLE_RETRY
          enableOfflineQueue :=
            (o.options.bind TriperoOptions.enableOfflineQueue).getD
              DEFAULTS_ENABLE_OFFLINE_QUEUE
          throwOnError :=
            (o.options.bind TriperoOptions.throwOnError).getD DEFAULTS_THROW_ON_ERROR
          logLevel :=
            (o.options.bind TriperoOptions.logLevel).getD DEFAULTS_LOG_LEVEL
          maxRetriesPerRequest :=
            (o.options.bind TriperoOptions.maxRetriesPerRequest).getD
              DEFAULTS_MAX_RETRIES_PER_REQUEST } }
  match TriperoHttpClient.make internal.http with
  | .error e => .error e
  | .ok hc =>
    .ok { options := internal
          prefixKey := internal.redis.prefixKey
          httpClient := some hc
          publisherConn := false
          subscriberConn := false
          isConnected := false
          isSubscribed := false
          handlers := []
          messageListeners := 0 }

/-- Outcome of the two awaited ioredis connect calls inside connect:
both succeed, the publisher connect rejects, or the subscriber connect
rejects (each failure carrying the rejection message). -/
inductive ConnectOutcome
  | ok
  | failPublisher (e : JsString)
  | failSubscriber (e : JsString)

/-- handleError: logs the message at error level and rethrows the
original error exactly when throwOnError is set.  Returns the log
entry and the optional thrown error. -/
def TriperoClient.handleError (st : ClientState) (message err : JsString) :
    List LogEntry × Except JsString Unit :=
  ([⟨.error, message⟩],
   if st.options.options.throwOnError then .error err else .ok ())

/-- TriperoClient.connect: an early warn-and-return when already
connected; otherwise two connections are opened (a failure of either
awaited connect runs handleError and then rethrows unconditionally).
A fresh subscriber object carries no message listeners. -/
def TriperoClient.connect (st : ClientState) (outcome : ConnectOutcome) :
    Step Unit :=
  if st.isConnected then
    { state := st, effects := [],
      logs := [⟨.warn, js "Ya conectado a Redis"⟩], ret := .ok () }
  else
    match outcome with
    | .ok =>
      { state := { st with
                     publisherConn := true
                     subscriberConn := true
                     isConnected := true
                     messageListeners := 0 }
        effects := [.openConn, .openConn]
        logs := [⟨.info, js "Conectado a Redis " ++ st.options.redis.host ++
            js ":" ++ (toString st.options.redis.port).toList ++ js " db " ++
            (toString st.options.redis.db).toList⟩]
        ret := .ok () }
    | .failPublisher e =>
      { state := { st with publisherConn := true }
        effects := [.openConn]
        logs := (TriperoClient.handleError st (js "Error conectando a Redis") e).1
        ret := .error e }
    | .failSubscriber e =>
      { state := { st with publisherConn := true, subscriberConn := true }
        effects := [.openConn, .openConn]
        logs := (TriperoClient.handleError st (js "Error conectando a Redis") e).1
        ret := .error e }

/-- TriperoClient.disconnect: quits whichever connections exist, nulls
both fields and resets the connected and subscribed flags
unconditionally.  Nulling the subscriber drops its message
listeners. -/
def TriperoClient.disconnect (st : ClientState) : Step Unit :=
  { state := { st with
                 subscriberConn := false
                 publisherConn := false
                 isConnected := false
                 isSubscribed := false
                 messageListeners := 0 }
    effects := (if st.subscriberConn then [Effect.quitConn] else []) ++
               (if st.publisherConn then [Effect.quitConn] else [])
    logs := [⟨.info, js "Desconectado de Redis"⟩]
    ret := .ok () }

/-- prefixChannel: prepends the configured key prefix. -/
def prefixChannel (prefixKey channel : JsString) : JsString :=
  prefixKey ++ channel

/-- unprefixChannel: strips the configured key prefix when it is
non-empty (JavaScript truthiness of the prefix string) and the channel
starts with it; otherwise returns the channel unchanged. -/
def unprefixChannel (prefixKey channel : JsString) : JsString :=
  if prefixKey ≠ [] ∧ prefixKey.isPrefixOf channel then
    channel.drop prefixKey.length
  else
    channel

/-- The private publish method: when the publisher is null or the
client is not connected, handleError logs the not-connected condition
and rethrows only under throwOnError; otherwise the serialized payload
is published on the channel (the transport send itself is embedded as
succeeding; its payload text is elided from the effect trace). -/
def TriperoClient.publish (st : ClientState) (channel : JsString) :
    Step Unit :=
  if !st.publisherConn || !st.isConnected then
    let he := TriperoClient.handleError st (js "No conectado a Redis")
      (js "Not connected")
    { state := st, effects := [], logs := he.1, ret := he.2 }
  else
    { state := st, effects := [.publishCmd channel], logs := [], ret := .ok () }

/-- Position event (interface PositionEvent).  Numeric payload fields
are embedded as integers; the SDK never computes with them.  The
optional metadata object is embedded by its JSON rendering. -/
structure PositionEvent where
  deviceId : JsString
  timestamp : Int
  latitude : Int
  longitude : Int
  speed : Int
  ignition : Option Bool
  altitude : Option Int
  heading : Option Int
  accuracy : Option Int
  satellites : Option Nat
  metadata : Option JsString

/-- Ignition event (interface IgnitionEvent). -/
structure IgnitionEvent where
  deviceId : JsString
  timestamp : Int
  ignition : Bool
  latitude : Int
  longitude : Int

/-- TriperoClient.publishPosition: publishes on the prefixed
position:new channel and, when the awaited publish did not throw, logs
the published position at debug level. -/
def TriperoClient.publishPosition (st : ClientState) (position : PositionEvent) :
    Step Unit :=
  let channel := prefixChannel st.prefixKey INPUT_CHANNELS_POSITION_NEW
  let s := TriperoClient.publish st channel
  match s.ret with
  | .error e => { s with ret := .error e }
  | .ok _ =>
    { s with logs := s.logs ++
        [⟨.debug, js "Posición publicada para " ++ position.deviceId⟩] }

/-- TriperoClient.publishIgnitionEvent: publishes on the prefixed
ignition:changed channel and, when the awaited publish did not throw,
logs the change at debug level. -/
def TriperoClient.publishIgnitionEvent (st : ClientState) (event : IgnitionEvent) :
    Step Unit :=
  let channel := prefixChannel st.prefixKey INPUT_CHANNELS_IGNITION_CHANGED
  let s := TriperoClient.publish st channel
  match s.ret with
  | .error e => { s with ret := .error e }
  | .ok _ =>
    { s with logs := s.logs ++
        [⟨.debug, js "Ignición " ++ (if event.ignition then js "ON" else js "OFF") ++
            js " publicada para " ++ event.deviceId⟩] }

/-- TriperoClient.publishPositions: the batch publish.  The same
not-connected guard applies; otherwise all positions are submitted in
one pipeline for the prefixed position:new channel (the pipeline exec
is embedded as succeeding) and a debug line is logged. -/
def TriperoClient.publishPositions (st : ClientState)
    (positions : List PositionEvent) : Step Unit :=
  if !st.publisherConn || !st.isConnected then
    let he := TriperoClient.handleError st (js "No conectado a Redis")
      (js "Not connected")
    { state := st, effects := [], logs := he.1, ret := he.2 }
  else
    { state := st
      effects := [.pipelinePublish
        (prefixChannel st.prefixKey INPUT_CHANNELS_POSITION_NEW) positions.length]
      logs := [⟨.debug, (toString positions.length).toList ++
          js " posiciones publicadas en batch"⟩]
      ret := .ok () }

/-- TriperoClient.on: registers a handler for an event type, creating
the channel entry when absent; the Set de-duplicates by function
identity (embedded as the handler id). -/
def TriperoClient.on (st : ClientState) (eventType : JsString) (h : Handler) :
    ClientState × List LogEntry :=
  let hs0 := (lookupChannel st.handlers eventType).getD []
  let hs1 := if hs0.any (fun g => g.id = h.id) then hs0 else hs0 ++ [h]
  ({ st with handlers := setChannel st.handlers eventType hs1 },
   [⟨.debug, js "Handler registrado para " ++ eventType⟩])

/-- TriperoClient.off: removes a handler (by function identity) from
the channel entry when one exists. -/
def TriperoClient.off (st : ClientState) (eventType : JsString) (h : Handler) :
    ClientState :=
  match lookupChannel st.handlers eventType with
  | none => st
  | some hs =>
    { st with handlers :=
        setChannel st.handlers eventType (hs.filter (fun g => g.id ≠ h.id)) }

/-- TriperoClient.subscribe: throws the not-connected error directly
(bypassing handleError, hence neither logged nor policy-gated) when the
subscriber is null or the client is not connected; warns and returns
when already subscribed; warns and returns when no handlers are
registered; otherwise installs one more message listener on the
subscriber connection, subscribes to every prefixed registered channel
in one call and sets the subscribed flag. -/
def TriperoClient.subscribe (st : ClientState) : Step Unit :=
  if !st.subscriberConn || !st.isConnected then
    { state := st, effects := [], logs := [],
      ret := .error (js "No conectado a Redis") }
  else if st.isSubscribed then
    { state := st, effects := [],
      logs := [⟨.warn, js "Ya suscrito a eventos"⟩], ret := .ok () }
  else
    let channels := st.handlers.map Prod.fst
    if channels.length = 0 then
      { state := st, effects := [],
        logs := [⟨.warn, js "No hay handlers registrados para suscribirse"⟩],
        ret := .ok () }
    else
      { state := { st with
                     messageListeners := st.messageListeners + 1
                     isSubscribed := true }
        effects := [.addMessageListener,
          .subscribeCmd (channels.map (prefixChannel st.prefixKey))]
        logs := [⟨.info, js "Suscrito a " ++ (toString channels.length).toList ++
            js " canales: " ++ List.intercalate (js ", ") channels⟩]
        ret := .ok () }

/-- TriperoClient.unsubscribe: cancels the channel subscriptions and
clears the subscribed flag when subscribed; a no-op otherwise.  The
message listeners installed on the subscriber connection are not
removed. -/
def TriperoClient.unsubscribe (st : ClientState) : Step Unit :=
  if st.subscriberConn && st.isSubscribed then
    { state := { st with isSubscribed := false }
      effects := [.unsubscribeCmd]
      logs := [⟨.info, js "Desuscrito de todos los canales"⟩]
      ret := .ok () }
  else
    { state := st, effects := [], logs := [], ret := .ok () }

/-- ensureHttpClient: throws the descriptive not-configured error when
the httpClient field is null. -/
def TriperoClient.ensureHttpClient (st : ClientState) : Except JsString Unit :=
  match st.httpClient with
  | none =>
    .error (js "HTTP client not configured. Provide http.baseUrl in TriperoClientOptions.")
  | some _ => .ok ()

/-- Log entries emitted for one handler invocation: the try/catch
around the synchronous call logs a synchronous throw, and the catch
attached to a returned promise logs an asynchronous rejection. -/
def handlerLogs (channel : JsString) (event : Json) (h : Handler) :
    List LogEntry :=
  match h.run event with
  | .ok => []
  | .promiseResolved => []
  | .throws _ => [⟨.error, js "Error en handler de " ++ channel ++ js ":"⟩]
  | .promiseRejected _ =>
    [⟨.error, js "Error en handler async de " ++ channel ++ js ":"⟩]

/-- The handler loop of handleMessage: invokes every handler in order
with the parsed event, collecting the per-handler log entries and the
invocation trace (handler id paired with the event it received). -/
def dispatchHandlers (channel : JsString) (event : Json) :
    List Handler → List LogEntry × List (Nat × Json)
  | [] => ([], [])
  | h :: rest =>
    let tail := dispatchHandlers channel event rest
    (handlerLogs channel event h ++ tail.1, (h.id, event) :: tail.2)

/-- TriperoClient.handleMessage: strips the prefix from the incoming
channel, looks up the handlers, drops the message silently when there
are none, logs a parse failure, and otherwise runs the handler loop.
The wire payload is embedded by its JSON.parse result (`Except`: error
means the text was not parseable).  Returns the log entries and the
invocation trace. -/
def TriperoClient.handleMessage (st : ClientState) (prefixedChannel : JsString)
    (payload : Except JsString Json) : List LogEntry × List (Nat × Json) :=
  let channel := unprefixChannel st.prefixKey prefixedChannel
  match lookupChannel st.handlers channel with
  | none => ([], [])
  | some hs =>
    if hs.length = 0 then ([], [])
    else
      match payload with
      | .error _ =>
        ([⟨.error, js "Error parseando mensaje de " ++ channel ++ js ":"⟩], [])
      | .ok event => dispatchHandlers channel event hs

/-- Delivery of one inbound transport message: the subscriber
connection emits the message event once per installed listener, and
every installed listener is the handleMessage closure. -/
def TriperoClient.deliverMessage (st : ClientState) (prefixedChannel : JsString)
    (payload : Except JsString Json) : List LogEntry × List (Nat × Json) :=
  ((List.replicate st.messageListeners
      (TriperoClient.handleMessage st prefixedChannel payload).1).flatten,
   (List.replicate st.messageListeners
      (TriperoClient.handleMessage st prefixedChannel payload).2).flatten)

/-- The client state after the call sequence subscribe, unsubscribe,
subscribe (each step on the successor state of the previous one). -/
def resubscribed (st : ClientState) : ClientState :=
  (TriperoClient.subscribe
    ((TriperoClient.unsubscribe ((TriperoClient.subscribe st).state)).state)).state

/-! Concrete sample values used by the witnesses and counterexamples. -/

/-- Redis options with every field left to its default. -/
def sampleRedisOptions : TriperoRedisOptions :=
  { host := none, port := none, db := none, password := none,
    username := none, prefixKey := none }

/-- Constructor options whose http field is absent at runtime. -/
def optsNoHttp : TriperoClientOptions :=
  { redis := sampleRedisOptions, http := none, options := none }

/-- An HTTP configuration with a trailing slash on the base URL. -/
def sampleHttpOptions : TriperoHttpOptions :=
  { baseUrl := js "http://tripero-service:3001/", timeout := none, headers := [] }

/-- Constructor options with HTTP configuration present. -/
def optsWithHttp : TriperoClientOptions :=
  { redis := sampleRedisOptions, http := some sampleHttpOptions, options := none }

/-- The HTTP client the constructor derives from sampleHttpOptions. -/
def sampleHttpClient : TriperoHttpClient :=
  { baseUrl := js "http://tripero-service:3001", timeout := 10000,
    headers := [(js "Content-Type", js "application/json")] }

/-- Fully-resolved internal options with the given error policy. -/
def resolvedOptions (throwOnError : Bool) : InternalOptions :=
  { redis :=
      { host := DEFAULTS_REDIS_HOST, port := DEFAULTS_REDIS_PORT,
        db := DEFAULTS_REDIS_DB, password := none, username := none,
        prefixKey := DEFAULTS_PREFIX_KEY }
    http := some sampleHttpOptions
    options :=
      { enableRetry := false, enableOfflineQueue := false,
        throwOnError := throwOnError, logLevel := .info,
        maxRetriesPerRequest := 1 } }

/-- A freshly constructed client (the state TriperoClient.make returns
for optsWithHttp): never connected, empty registry. -/
def stConstructed : ClientState :=
  { options := resolvedOptions false
    prefixKey := DEFAULTS_PREFIX_KEY
    httpClient := some sampleHttpClient
    publisherConn := false
    subscriberConn := false
    isConnected := false
    isSubscribed := false
    handlers := []
    messageListeners := 0 }

/-- A freshly constructed client whose error policy is to throw. -/
def stConstructedThrow : ClientState :=
  { stConstructed with options := resolvedOptions true }

/-- A connected client with no registered handlers. -/
def stConnected : ClientState :=
  { stConstructed with
      publisherConn := true
      subscriberConn := true
      isConnected := true }

/-- A handler that throws synchronously on every event. -/
def throwingHandler : Handler :=
  { id := 1, run := fun _ => .throws (js "boom") }

/-- A handler that returns normally on every event. -/
def plainHandler : Handler :=
  { id := 2, run := fun _ => .ok }

/-- A connected client with two handlers on trip:completed, the first
of which throws. -/
def stWithHandlers : ClientState :=
  { stConnected with
      handlers := [(js "trip:completed", [throwingHandler, plainHandler])] }

/-- A sample parsed inbound event. -/
def sampleEvent : Json := .obj [(js "tripId", .str (js "T1"))]

/-- A sample position event. -/
def samplePosition : PositionEvent :=
  { deviceId := js "VEHICLE-001", timestamp := 1700000000000,
    latitude := -34, longitude := -58, speed := 45, ignition := some true,
    altitude := none, heading := none, accuracy := none, satellites := none,
    metadata := none }

/-- A sample ignition event. -/
def sampleIgnition : IgnitionEvent :=
  { deviceId := js "VEHICLE-001", timestamp := 1700000000000,
    ignition := true, latitude := -34, longitude := -58 }

/-- A sample report query with a three-element device filter, a Date
lower bound, a string upper bound, one truthy optional filter, one
empty-string (falsy) optional filter and a metadata object. -/
def sampleReportQuery : ReportQueryOptions :=
  { deviceId := .arr [js "DEV-1", js "DEV-2", js "DEV-3"]
    fromBound := .date (js "2025-01-01T00:00:00.000Z")
    toBound := .str (js "2025-02-01T00:00:00.000Z")
    tenantId := some (js "tenant-9")
    clientId := none
    fleetId := some []
    metadata := some (js "\x7b\x7d") }

/-! Helper lemmas. -/

/-- Stripping a prefix just prepended recovers the original name, for
every prefix (including the empty one, where unprefixChannel falls
through to the identity branch). -/
theorem unprefix_prefix_aux (p c : JsString) :
    unprefixChannel p (prefixChannel p c) = c := by
  unfold unprefixChannel prefixChannel
  by_cases hp : p = []
  · subst hp; simp
  · have hpre : p.isPrefixOf (p ++ c) := by
      rw [List.isPrefixOf_iff_prefix]
      exact List.prefix_append p c
    simp [hp, hpre]

/-- Filtering for a key after removing that key yields nothing. -/
theorem filter_key_of_removed (rest : List (JsString × JsString))
    (k : JsString) :
    (rest.filter (fun q => q.1 ≠ k)).filter (fun p => p.1 = k) = [] := by
  induction rest with
  | nil => rfl
  | cons a t ih =>
    by_cases h1 : a.1 = k <;> simp [List.filter, h1, ih]

/-- Removing one key does not change the entries of another key. -/
theorem filter_key_filter_ne (rest : List (JsString × JsString))
    (k k' : JsString) (h : k' ≠ k) :
    (rest.filter (fun q => q.1 ≠ k')).filter (fun p => p.1 = k) =
      rest.filter (fun p => p.1 = k) := by
  rw [List.filter_filter]
  apply List.filter_congr
  intro x _
  by_cases h1 : x.1 = k
  · have h2 : ¬ x.1 = k' := fun hc => h (by rw [← hc, h1])
    simp only [h1, h2, decide_not]
    simp [Ne.symm h]
  · simp [h1]

/-- setParam leaves exactly one entry for the key it sets. -/
theorem countKey_setParam_self (ps : List (JsString × JsString))
    (k v : JsString) : countKey k (setParam ps k v) = 1 := by
  induction ps with
  | nil => simp [setParam, countKey]
  | cons p rest ih =>
    by_cases h : p.1 = k
    · simp [setParam, h, countKey, filter_key_of_removed]
    · simpa [setParam, h, countKey] using ih

/-- setParam with a different key does not change the entry count of a
key. -/
theorem countKey_setParam_ne (ps : List (JsString × JsString))
    (k k' v : JsString) (h : k' ≠ k) :
    countKey k (setParam ps k' v) = countKey k ps := by
  induction ps with
  | nil => simp [setParam, countKey, h]
  | cons p rest ih =>
    by_cases hp : p.1 = k'
    · have hk : ¬ p.1 = k := fun hc => h (by rw [← hp, hc])
      simp only [setParam, if_pos hp, countKey]
      rw [List.filter_cons, if_neg (by simp [h]), List.filter_cons,
        if_neg (by simp [hk]), filter_key_filter_ne rest k k' h]
    · simp only [setParam, if_neg hp, countKey] at ih ⊢
      rw [List.filter_cons, List.filter_cons]
      by_cases hk : p.1 = k
      · rw [if_pos (by simp [hk]), if_pos (by simp [hk])]
        simpa using ih
      · rw [if_neg (by simp [hk]), if_neg (by simp [hk])]
        exact ih

/-- setOpt with a different key does not change the entry count of a
key. -/
theorem countKey_setOpt_ne (ps : List (JsString × JsString))
    (k k' : JsString) (v : Option JsString) (h : k' ≠ k) :
    countKey k (setOpt ps k' v) = countKey k ps := by
  cases v with
  | none => rfl
  | some s =>
    by_cases hs : s ≠ []
    · simp [setOpt, hs, countKey_setParam_ne ps k k' s h]
    · simp [setOpt, hs]

/-- Removing one key does not change the first entry of another key. -/
theorem find_key_filter_ne (rest : List (JsString × JsString))
    (k k' : JsString) (h : k' ≠ k) :
    (rest.filter (fun q => q.1 ≠ k')).find? (fun p => p.1 = k) =
      rest.find? (fun p => p.1 = k) := by
  induction rest with
  | nil => rfl
  | cons a t ih =>
    by_cases h1 : a.1 = k
    · have h2 : ¬ a.1 = k' := fun hc => h (by rw [← hc, h1])
      rw [List.filter_cons, if_pos (by simp [h2]),
        List.find?_cons_of_pos _ (by simp [h1]),
        List.find?_cons_of_pos _ (by simp [h1])]
    · by_cases h2 : a.1 = k'
      · rw [List.filter_cons, if_neg (by simp [h2]),
          List.find?_cons_of_neg _ (by simp [h1]), ih]
      · rw [List.filter_cons, if_pos (by simp [h2]),
          List.find?_cons_of_neg _ (by simp [h1]),
          List.find?_cons_of_neg _ (by simp [h1]), ih]

/-- The first entry for the key setParam just set carries its value. -/
theorem getParam_setParam_self (ps : List (JsString × JsString))
    (k v : JsString) : getParam (setParam ps k v) k = some v := by
  induction ps with
  | nil => simp [setParam, getParam]
  | cons p rest ih =>
    by_cases h : p.1 = k
    · simp [setParam, h, getParam]
    · simpa [setParam, h, getParam, List.find?] using ih

/-- setParam with a different key does not change the first entry of a
key. -/
theorem getParam_setParam_ne (ps : List (JsString × JsString))
    (k k' v : JsString) (h : k' ≠ k) :
    getParam (setParam ps k' v) k = getParam ps k := by
  induction ps with
  | nil => simp [setParam, getParam, List.find?, h]
  | cons p rest ih =>
    by_cases hp : p.1 = k'
    · have hk : ¬ p.1 = k := fun hc => h (by rw [← hp, hc])
      simp only [setParam, if_pos hp, getParam]
      rw [List.find?_cons_of_neg _ (by simp [h]),
        List.find?_cons_of_neg _ (by simp [hk]),
        find_key_filter_ne rest k k' h]
    · simp only [setParam, if_neg hp, getParam] at ih ⊢
      by_cases hk : p.1 = k
      · rw [List.find?_cons_of_pos _ (by simp [hk]),
          List.find?_cons_of_pos _ (by simp [hk])]
      · rw [List.find?_cons_of_neg _ (by simp [hk]),
          List.find?_cons_of_neg _ (by simp [hk])]
        exact ih

/-- setOpt with a different key does not change the first entry of a
key. -/
theorem getParam_setOpt_ne (ps : List (JsString × JsString))
    (k k' : JsString) (v : Option JsString) (h : k' ≠ k) :
    getParam (setOpt ps k' v) k = getParam ps k := by
  cases v with
  | none => rfl
  | some s =>
    by_cases hs : s ≠ []
    · simp [setOpt, hs, getParam_setParam_ne ps k k' s h]
    · simp [setOpt, hs]

/-- The invocation trace of the handler loop: every handler in order,
each with the same parsed event. -/
theorem dispatchHandlers_trace (channel : JsString) (event : Json)
    (hs : List Handler) :
    (dispatchHandlers channel event hs).2 = hs.map (fun h => (h.id, event)) := by
  induction hs with
  | nil => rfl
  | cons h rest ih => simp [dispatchHandlers, ih]

/-! Claim theorems. -/

/-- Claim C4: for every configured prefix string and every logical
channel name not already containing the prefix, stripping the prefix
(unprefixChannel) from the name produced by applying the prefix
(prefixChannel) recovers the original logical name. -/
theorem unprefix_recovers_prefixed_channel (p c : JsString)
    (hfree : ¬ p <:+: c) :
    unprefixChannel p (prefixChannel p c) = c :=
  unprefix_prefix_aux p c

theorem unprefix_recovers_prefixed_channel_witness :
    ¬ (js "tripero:") <:+: (js "trip:started") ∧
    unprefixChannel (js "tripero:") (prefixChannel (js "tripero:")
      (js "trip:started")) = js "trip:started" :=
  ⟨by decide,
   unprefix_recovers_prefixed_channel (js "tripero:") (js "trip:started")
     (by decide)⟩

/-- Claim C7: for every REST gateway call, a non-2xx response rejects
with an error exposing the original status code and the response body
text, an abort of the timed-out request rejects with a distinct timeout
error naming the configured duration, and a 2xx response returns the
parsed body. -/
theorem request_status_timeout_success_behavior {α : Type}
    (c : TriperoHttpClient) (method url statusText bodyText : JsString)
    (status : Nat) (body : α) :
    (responseOk status = false →
      (c.request method url (.response status statusText bodyText body)).1 =
        .error (js "HTTP " ++ (toString status).toList ++ js ": " ++
          statusText ++ js " - " ++ bodyText)) ∧
    (c.request method url (.abortError : FetchOutcome α)).1 =
      .error (js "Request timeout after " ++ (toString c.timeout).toList ++
        js "ms") ∧
    (responseOk status = true →
      (c.request method url (.response status statusText bodyText body)).1 =
        .ok body) := by
  refine ⟨fun hok => ?_, rfl, fun hok => ?_⟩
  · simp [TriperoHttpClient.request, hok]
  · simp [TriperoHttpClient.request, hok]

theorem request_status_timeout_success_behavior_witness :
    responseOk 404 = false ∧ responseOk 200 = true ∧
    (sampleHttpClient.request (js "GET") (js "http://tripero-service:3001/health")
        (.response 404 (js "Not Found") (js "missing") (js "BODY"))).1 =
      .error (js "HTTP " ++ (toString 404).toList ++ js ": " ++
        js "Not Found" ++ js " - " ++ js "missing") ∧
    (sampleHttpClient.request (js "GET") (js "http://tripero-service:3001/health")
        (.response 200 (js "OK") (js "okbody") (js "BODY"))).1 =
      .ok (js "BODY") :=
  ⟨by decide, by decide,
   (request_status_timeout_success_behavior sampleHttpClient (js "GET")
      (js "http://tripero-service:3001/health") (js "Not Found") (js "missing")
      404 (js "BODY")).1 (by decide),
   (request_status_timeout_success_behavior sampleHttpClient (js "GET")
      (js "http://tripero-service:3001/health") (js "OK") (js "okbody")
      200 (js "BODY")).2.2 (by decide)⟩

/-- Claim C8: for every getTrips/getStops call with a multi-element
device-identifier filter, the produced query carries a single deviceId
parameter equal to the elements joined by commas in input order, and
the from/to bounds are placed in the query as their toISO
normalization (a Date rendered as ISO-8601 text, a string passed
through). -/
theorem buildReportParams_single_joined_deviceId (o : ReportQueryOptions)
    (ids : List JsString) (hmulti : o.deviceId = .arr ids)
    (hlen : 2 ≤ ids.length) :
    countKey (js "deviceId") (TriperoHttpClient.buildReportParams o) = 1 ∧
    getParam (TriperoHttpClient.buildReportParams o) (js "deviceId") =
      some (List.intercalate (js ",") ids) ∧
    getParam (TriperoHttpClient.buildReportParams o) (js "from") =
      some (toISO o.fromBound) ∧
    getParam (TriperoHttpClient.buildReportParams o) (js "to") =
      some (toISO o.toBound) := by
  simp only [TriperoHttpClient.buildReportParams, hmulti]
  cases hm : o.metadata with
  | none =>
    refine ⟨?_, ?_, ?_, ?_⟩
    · rw [countKey_setOpt_ne _ _ _ _ (by decide),
        countKey_setOpt_ne _ _ _ _ (by decide),
        countKey_setOpt_ne _ _ _ _ (by decide),
        countKey_setParam_ne _ _ _ _ (by decide),
        countKey_setParam_ne _ _ _ _ (by decide),
        countKey_setParam_self]
    · rw [getParam_setOpt_ne _ _ _ _ (by decide),
        getParam_setOpt_ne _ _ _ _ (by decide),
        getParam_setOpt_ne _ _ _ _ (by decide),
        getParam_setParam_ne _ _ _ _ (by decide),
        getParam_setParam_ne _ _ _ _ (by decide),
        getParam_setParam_self]
    · rw [getParam_setOpt_ne _ _ _ _ (by decide),
        getParam_setOpt_ne _ _ _ _ (by decide),
        getParam_setOpt_ne _ _ _ _ (by decide),
        getParam_setParam_ne _ _ _ _ (by decide),
        getParam_setParam_self]
    · rw [getParam_setOpt_ne _ _ _ _ (by decide),
        getParam_setOpt_ne _ _ _ _ (by decide),
        getParam_setOpt_ne _ _ _ _ (by decide),
        getParam_setParam_self]
  | some m =>
    refine ⟨?_, ?_, ?_, ?_⟩
    · rw [countKey_setParam_ne _ _ _ _ (by decide),
        countKey_setOpt_ne _ _ _ _ (by decide),
        countKey_setOpt_ne _ _ _ _ (by decide),
        countKey_setOpt_ne _ _ _ _ (by decide),
        countKey_setParam_ne _ _ _ _ (by decide),
        countKey_setParam_ne _ _ _ _ (by decide),
        countKey_setParam_self]
    · rw [getParam_setParam_ne _ _ _ _ (by decide),
        getParam_setOpt_ne _ _ _ _ (by decide),
        getParam_setOpt_ne _ _ _ _ (by decide),
        getParam_setOpt_ne _ _ _ _ (by decide),
        getParam_setParam_ne _ _ _ _ (by decide),
        getParam_setParam_ne _ _ _ _ (by decide),
        getParam_setParam_self]
    · rw [getParam_setParam_ne _ _ _ _ (by decide),
        getParam_setOpt_ne _ _ _ _ (by decide),
        getParam_setOpt_ne _ _ _ _ (by decide),
        getParam_setOpt_ne _ _ _ _ (by decide),
        getParam_setParam_ne _ _ _ _ (by decide),
        getParam_setParam_self]
    · rw [getParam_setParam_ne _ _ _ _ (by decide),
        getParam_setOpt_ne _ _ _ _ (by decide),
        getParam_setOpt_ne _ _ _ _ (by decide),
        getParam_setOpt_ne _ _ _ _ (by decide),
        getParam_setParam_self]

theorem buildReportParams_single_joined_deviceId_witness :
    sampleReportQuery.deviceId = .arr [js "DEV-1", js "DEV-2", js "DEV-3"] ∧
    2 ≤ [js "DEV-1", js "DEV-2", js "DEV-3"].length ∧
    countKey (js "deviceId")
      (TriperoHttpClient.buildReportParams sampleReportQuery) = 1 ∧
    getParam (TriperoHttpClient.buildReportParams sampleReportQuery)
      (js "deviceId") =
      some (List.intercalate (js ",") [js "DEV-1", js "DEV-2", js "DEV-3"]) :=
  ⟨rfl, by decide,
   (buildReportParams_single_joined_deviceId sampleReportQuery
      [js "DEV-1", js "DEV-2", js "DEV-3"] rfl (by decide)).1,
   (buildReportParams_single_joined_deviceId sampleReportQuery
      [js "DEV-1", js "DEV-2", js "DEV-3"] rfl (by decide)).2.1⟩

/-- Claim C1: evaluation of the code at the failing input.  A client
constructed without HTTP configuration fails at construction itself —
the constructor unconditionally builds the TriperoHttpClient, which
dereferences the absent base URL — instead of succeeding and deferring
the descriptive not-configured failure to the point of use as the
surrounding guards (ensureHttpClient, hasHttpClient) evidently
intend. -/
theorem construct_without_http_fails :
    optsNoHttp.http = none ∧
    TriperoClient.make optsNoHttp =
      .error (js "TypeError: Cannot read properties of undefined (reading baseUrl)") :=
  ⟨rfl, rfl⟩

/-- Complement to the C1 finding: every client whose construction
succeeds holds an HTTP client, so ensureHttpClient — the guard that
getTrackerStatus, setOdometer, getTrips, getStops and healthHttp each
run first — is unreachable dead code: it never raises the descriptive
not-configured error after any successful construction. -/
theorem make_http_always_present (o : TriperoClientOptions) (st : ClientState)
    (hok : TriperoClient.make o = .ok st) :
    o.http ≠ none ∧ st.httpClient ≠ none ∧
    TriperoClient.ensureHttpClient st = .ok () := by
  cases hh : o.http with
  | none =>
    simp [TriperoClient.make, TriperoHttpClient.make, hh] at hok
  | some ho =>
    simp only [TriperoClient.make, TriperoHttpClient.make, hh,
      Except.ok.injEq] at hok
    subst hok
    exact ⟨by simp [hh], by simp, rfl⟩

theorem make_http_always_present_witness :
    TriperoClient.make optsWithHttp = .ok stConstructed ∧
    stConstructed.httpClient ≠ none ∧
    TriperoClient.ensureHttpClient stConstructed = .ok () :=
  ⟨rfl, (make_http_always_present optsWithHttp stConstructed rfl).2.1,
   (make_http_always_present optsWithHttp stConstructed rfl).2.2⟩

/-- Claim C2 counterexample: on a disconnected client whose configured
error policy says not to raise (throwOnError false), subscribe still
raises the not-connected condition to the caller — and logs nothing —
contradicting the claim that the condition is logged and raised only
when the policy says to raise. -/
theorem subscribe_not_connected_raises_despite_policy :
    stConstructed.options.options.throwOnError = false ∧
    stConstructed.isConnected = false ∧
    (TriperoClient.subscribe stConstructed).ret =
      .error (js "No conectado a Redis") ∧
    (TriperoClient.subscribe stConstructed).logs = [] :=
  ⟨rfl, rfl, rfl, rfl⟩

/-- Claim C2 (amended): while not connected, every publish operation
(publish, publishPositions, publishPosition, publishIgnitionEvent) logs
the not-connected condition and raises it to the caller exactly when
throwOnError says to raise; subscribe instead raises the not-connected
error unconditionally, bypassing both the logger and the policy. -/
theorem not_connected_publish_policy_subscribe_throws (st : ClientState)
    (ch : JsString) (p : PositionEvent) (ev : IgnitionEvent)
    (ps : List PositionEvent) (h : st.isConnected = false) :
    (⟨.error, js "No conectado a Redis"⟩ ∈ (TriperoClient.publish st ch).logs ∧
      ((TriperoClient.publish st ch).ret = .error (js "Not connected") ↔
        st.options.options.throwOnError = true)) ∧
    (⟨.error, js "No conectado a Redis"⟩ ∈
        (TriperoClient.publishPositions st ps).logs ∧
      ((TriperoClient.publishPositions st ps).ret = .error (js "Not connected") ↔
        st.options.options.throwOnError = true)) ∧
    (⟨.error, js "No conectado a Redis"⟩ ∈
        (TriperoClient.publishPosition st p).logs ∧
      ((TriperoClient.publishPosition st p).ret = .error (js "Not connected") ↔
        st.options.options.throwOnError = true)) ∧
    (⟨.error, js "No conectado a Redis"⟩ ∈
        (TriperoClient.publishIgnitionEvent st ev).logs ∧
      ((TriperoClient.publishIgnitionEvent st ev).ret =
          .error (js "Not connected") ↔
        st.options.options.throwOnError = true)) ∧
    ((TriperoClient.subscribe st).ret = .error (js "No conectado a Redis") ∧
      (TriperoClient.subscribe st).logs = []) := by
  cases hto : st.options.options.throwOnError <;>
    simp [TriperoClient.publish, TriperoClient.publishPositions,
      TriperoClient.publishPosition, TriperoClient.publishIgnitionEvent,
      TriperoClient.subscribe, TriperoClient.handleError, h, hto]

theorem not_connected_publish_policy_subscribe_throws_witness :
    stConstructed.isConnected = false ∧
    ⟨.error, js "No conectado a Redis"⟩ ∈
      (TriperoClient.publish stConstructed (js "tripero:position:new")).logs ∧
    (TriperoClient.subscribe stConstructed).ret =
      .error (js "No conectado a Redis") :=
  ⟨rfl,
   (not_connected_publish_policy_subscribe_throws stConstructed
      (js "tripero:position:new") samplePosition sampleIgnition [] rfl).1.1,
   (not_connected_publish_policy_subscribe_throws stConstructed
      (js "tripero:position:new") samplePosition sampleIgnition [] rfl).2.2.2.2.1⟩

/-- Claim C3: with throwOnError false (the default), publishPosition
called while disconnected logs the failure and resolves without
rejecting; with throwOnError true, the same call rejects. -/
theorem publishPosition_disconnected_policy (st : ClientState)
    (p : PositionEvent) (h : st.isConnected = false) :
    (st.options.options.throwOnError = false →
      (TriperoClient.publishPosition st p).ret = .ok () ∧
      ⟨.error, js "No conectado a Redis"⟩ ∈
        (TriperoClient.publishPosition st p).logs) ∧
    (st.options.options.throwOnError = true →
      (TriperoClient.publishPosition st p).ret =
        .error (js "Not connected")) := by
  cases hto : st.options.options.throwOnError <;>
    simp [TriperoClient.publishPosition, TriperoClient.publish,
      TriperoClient.handleError, h, hto]

theorem publishPosition_disconnected_policy_witness :
    stConstructed.isConnected = false ∧
    stConstructed.options.options.throwOnError = false ∧
    (TriperoClient.publishPosition stConstructed samplePosition).ret = .ok () ∧
    stConstructedThrow.isConnected = false ∧
    stConstructedThrow.options.options.throwOnError = true ∧
    (TriperoClient.publishPosition stConstructedThrow samplePosition).ret =
      .error (js "Not connected") :=
  ⟨rfl, rfl,
   ((publishPosition_disconnected_policy stConstructed samplePosition rfl).1
      rfl).1,
   rfl, rfl,
   (publishPosition_disconnected_policy stConstructedThrow samplePosition
      rfl).2 rfl⟩

/-- Claim C5: for every inbound message whose channel has at least two
registered handlers, a first handler that throws synchronously has its
error logged and does not prevent the second handler from being invoked
with the same parsed message. -/
theorem throwing_handler_does_not_block_next (st : ClientState)
    (pch : JsString) (event : Json) (e : JsString) (h1 h2 : Handler)
    (rest : List Handler)
    (hlook : lookupChannel st.handlers (unprefixChannel st.prefixKey pch) =
      some (h1 :: h2 :: rest))
    (hthrow : h1.run event = .throws e) :
    ⟨.error, js "Error en handler de " ++
        unprefixChannel st.prefixKey pch ++ js ":"⟩ ∈
      (TriperoClient.handleMessage st pch (.ok event)).1 ∧
    (TriperoClient.handleMessage st pch (.ok event)).2 =
      (h1.id, event) :: (h2.id, event) ::
        rest.map (fun h => (h.id, event)) := by
  simp only [TriperoClient.handleMessage, hlook]
  simp [dispatchHandlers, handlerLogs, hthrow, dispatchHandlers_trace]

theorem throwing_handler_does_not_block_next_witness :
    throwingHandler.run sampleEvent = .throws (js "boom") ∧
    ⟨.error, js "Error en handler de " ++
        unprefixChannel stWithHandlers.prefixKey
          (js "tripero:trip:completed") ++ js ":"⟩ ∈
      (TriperoClient.handleMessage stWithHandlers
        (js "tripero:trip:completed") (.ok sampleEvent)).1 ∧
    (TriperoClient.handleMessage stWithHandlers
        (js "tripero:trip:completed") (.ok sampleEvent)).2 =
      [(throwingHandler.id, sampleEvent), (plainHandler.id, sampleEvent)] :=
  ⟨rfl,
   (throwing_handler_does_not_block_next stWithHandlers
      (js "tripero:trip:completed") sampleEvent (js "boom")
      throwingHandler plainHandler [] rfl rfl).1,
   (throwing_handler_does_not_block_next stWithHandlers
      (js "tripero:trip:completed") sampleEvent (js "boom")
      throwingHandler plainHandler [] rfl rfl).2⟩

/-- Claim C6 counterexample: a client with zero registered handlers for
which subscribe does not complete without error — on a disconnected
client the not-connected check precedes the zero-handler check and
throws, contradicting the claim for every client. -/
theorem subscribe_zero_handlers_disconnected_errors :
    stConstructedThrow.handlers = [] ∧
    (TriperoClient.subscribe stConstructedThrow).ret =
      .error (js "No conectado a Redis") :=
  ⟨rfl, rfl⟩

/-- Claim C6 (amended): for every connected client with zero registered
handlers, subscribe performs no transport call, completes without
error, leaves the state unchanged and emits exactly one warning. -/
theorem subscribe_connected_zero_handlers_noop (st : ClientState)
    (hsub : st.subscriberConn = true) (hic : st.isConnected = true)
    (hh : st.handlers = []) :
    (TriperoClient.subscribe st).state = st ∧
    (TriperoClient.subscribe st).effects = [] ∧
    (TriperoClient.subscribe st).ret = .ok () ∧
    (TriperoClient.subscribe st).logs.length = 1 ∧
    ∀ l ∈ (TriperoClient.subscribe st).logs, l.level = .warn := by
  cases hs : st.isSubscribed <;>
    simp [TriperoClient.subscribe, hsub, hic, hh, hs]

theorem subscribe_connected_zero_handlers_noop_witness :
    stConnected.subscriberConn = true ∧ stConnected.handlers = [] ∧
    (TriperoClient.subscribe stConnected).effects = [] ∧
    (TriperoClient.subscribe stConnected).ret = .ok () :=
  ⟨rfl, rfl,
   (subscribe_connected_zero_handlers_noop stConnected rfl rfl rfl).2.1,
   (subscribe_connected_zero_handlers_noop stConnected rfl rfl rfl).2.2.1⟩

/-- Claim C9: connect and disconnect are idempotent — calling connect on
an already-connected client logs a warning and returns without opening
a second pair of transport connections (state unchanged, no effects);
disconnect closes whichever connections exist and resets the connected
and subscribed flags unconditionally, from any state. -/
theorem connect_idempotent_disconnect_resets (st st2 : ClientState)
    (outcome : ConnectOutcome) (hc : st.isConnected = true) :
    TriperoClient.connect st outcome =
      { state := st, effects := [],
        logs := [⟨.warn, js "Ya conectado a Redis"⟩], ret := .ok () } ∧
    (TriperoClient.disconnect st2).state.publisherConn = false ∧
    (TriperoClient.disconnect st2).state.subscriberConn = false ∧
    (TriperoClient.disconnect st2).state.isConnected = false ∧
    (TriperoClient.disconnect st2).state.isSubscribed = false ∧
    (TriperoClient.disconnect st2).effects =
      (if st2.subscriberConn then [Effect.quitConn] else []) ++
      (if st2.publisherConn then [Effect.quitConn] else []) := by
  simp [TriperoClient.connect, TriperoClient.disconnect, hc]

theorem connect_idempotent_disconnect_resets_witness :
    stConnected.isConnected = true ∧
    TriperoClient.connect stConnected .ok =
      { state := stConnected, effects := [],
        logs := [⟨.warn, js "Ya conectado a Redis"⟩], ret := .ok () } ∧
    (TriperoClient.disconnect stConnected).state.isConnected = false :=
  ⟨rfl,
   (connect_idempotent_disconnect_resets stConnected stConnected .ok rfl).1,
   (connect_idempotent_disconnect_resets stConnected stConnected .ok
      rfl).2.2.2.1⟩

/-- The state transition of a subscribe call that reaches the
transport: one more message listener and the subscribed flag set. -/
theorem subscribe_state_transport (st : ClientState)
    (hsub : st.subscriberConn = true) (hic : st.isConnected = true)
    (hns : st.isSubscribed = false)
    (hlen : ¬ (st.handlers.map Prod.fst).length = 0) :
    (TriperoClient.subscribe st).state =
      { st with
          messageListeners := st.messageListeners + 1
          isSubscribed := true } := by
  simp only [TriperoClient.subscribe, hsub, hic, hns]
  rw [if_neg (by simp), if_neg (by simp), if_neg hlen]

/-- The state after subscribe, unsubscribe, subscribe: the subscribed
flag is set again and two listeners have accumulated. -/
theorem resubscribed_fields (st : ClientState)
    (hsub : st.subscriberConn = true) (hic : st.isConnected = true)
    (hns : st.isSubscribed = false)
    (hlen : ¬ (st.handlers.map Prod.fst).length = 0) :
    resubscribed st =
      { st with
          messageListeners := st.messageListeners + 2
          isSubscribed := true } := by
  unfold resubscribed
  rw [subscribe_state_transport st hsub hic hns hlen]
  have h2 : (TriperoClient.unsubscribe
      { st with
          messageListeners := st.messageListeners + 1
          isSubscribed := true }).state =
      { st with
          messageListeners := st.messageListeners + 1
          isSubscribed := false } := by
    simp [TriperoClient.unsubscribe, hsub]
  rw [h2, subscribe_state_transport _ (by simpa using hsub)
    (by simpa using hic) (by simp) (by simpa using hlen)]

/-- Claim C10: each subscribe call that reaches the transport installs
an additional message listener and unsubscribe does not remove it, so
after subscribe, unsubscribe, subscribe on a fresh connected client two
listeners are installed and a single inbound message invokes every
registered handler of its channel twice, with the same parsed event. -/
theorem resubscribe_doubles_dispatch (st : ClientState) (ch : JsString)
    (hs : List Handler) (event : Json)
    (hsub : st.subscriberConn = true) (hic : st.isConnected = true)
    (hns : st.isSubscribed = false) (hml : st.messageListeners = 0)
    (hlook : lookupChannel st.handlers ch = some hs) (hhs : hs ≠ []) :
    (resubscribed st).messageListeners = 2 ∧
    (TriperoClient.deliverMessage (resubscribed st)
        (prefixChannel st.prefixKey ch) (.ok event)).2 =
      (hs.map fun h => (h.id, event)) ++ hs.map fun h => (h.id, event) := by
  have hne : st.handlers ≠ [] := by
    intro hemp
    rw [hemp] at hlook
    cases hlook
  have hlen : ¬ (st.handlers.map Prod.fst).length = 0 := by
    simpa [List.length_eq_zero] using hne
  have hch := unprefix_prefix_aux st.prefixKey ch
  have hhs0 : ¬ hs.length = 0 := by simpa [List.length_eq_zero] using hhs
  rw [resubscribed_fields st hsub hic hns hlen]
  constructor
  · simp [hml]
  · simp [TriperoClient.deliverMessage, TriperoClient.handleMessage,
      hml, hch, hlook, hhs0, dispatchHandlers_trace]

theorem resubscribe_doubles_dispatch_witness :
    stWithHandlers.messageListeners = 0 ∧
    (resubscribed stWithHandlers).messageListeners = 2 ∧
    (TriperoClient.deliverMessage (resubscribed stWithHandlers)
        (prefixChannel stWithHandlers.prefixKey (js "trip:completed"))
        (.ok sampleEvent)).2 =
      [(throwingHandler.id, sampleEvent), (plainHandler.id, sampleEvent),
       (throwingHandler.id, sampleEvent), (plainHandler.id, sampleEvent)] :=
  ⟨rfl,
   (resubscribe_doubles_dispatch stWithHandlers (js "trip:completed")
      [throwingHandler, plainHandler] sampleEvent rfl rfl rfl rfl rfl
      (List.cons_ne_nil _ _)).1,
   (resubscribe_doubles_dispatch stWithHandlers (js "trip:completed")
      [throwingHandler, plainHandler] sampleEvent rfl rfl rfl rfl rfl
      (List.cons_ne_nil _ _)).2⟩

end Tripero
